import Mathlib

/-! Bump logging facility (`src/src/bump/Log.cpp`).

A shallow embedding of `bump::Log` and of the free-standing convenience
functions `bumpALWAYS` … `bumpDEBUG`.  Streams, the file system and the clock
are made explicit in a `World`; every method of `Log` becomes a function on
`State` (the object's fields together with the world it writes to).
-/

namespace bump

/-! ## Data model -/

/-- Modelled from the spec: the enum `Log::LogLevel` is declared in `Log.h`,
which is not among the sources.  The five enumerators are the ones `Log.cpp`
uses, in the ordinal order ALWAYS < ERROR < WARNING < INFO < DEBUG. -/
inductive LogLevel where
  | ALWAYS_LVL
  | ERROR_LVL
  | WARNING_LVL
  | INFO_LVL
  | DEBUG_LVL
  deriving DecidableEq, Repr

/-- The integral value of an enumerator, which `logLevel <= _logLevel` compares. -/
def LogLevel.ordinal : LogLevel → Nat
  | .ALWAYS_LVL => 0
  | .ERROR_LVL => 1
  | .WARNING_LVL => 2
  | .INFO_LVL => 3
  | .DEBUG_LVL => 4

instance : LE LogLevel := ⟨fun a b => a.ordinal ≤ b.ordinal⟩

instance (a b : LogLevel) : Decidable (a ≤ b) :=
  inferInstanceAs (Decidable (a.ordinal ≤ b.ordinal))

/-- Modelled from the spec: the enum `Log::TimestampFormat` is declared in
`Log.h`, which is not among the sources.  `Log.cpp` names three of the four
enumerators; the time-only one, which `Log.cpp` never mentions, is called
`TIME_TIMESTAMP` here. -/
inductive TimestampFormat where
  | DATE_TIME_TIMESTAMP
  | DATE_TIME_WITH_AM_PM_TIMESTAMP
  | TIME_TIMESTAMP
  | TIME_WITH_AM_PM_TIMESTAMP
  deriving DecidableEq, Repr

/-- The objects a `std::ostream*` of the logger can point to: the two standard
streams, the `n`-th `std::ofstream` the logger allocated with `new`, or a
stream supplied by a caller of `setLogStream`. -/
inductive OStream where
  | cout
  | cerr
  | file (handle : Nat)
  | external (id : Nat)
  deriving DecidableEq, Repr

/-- The value of `boost::posix_time::second_clock::local_time()`. -/
structure PTime where
  year : Nat
  month : Nat
  day : Nat
  hours : Nat
  minutes : Nat
  seconds : Nat
  deriving DecidableEq, Repr

/-- Everything outside the `Log` object that `Log.cpp` reads or writes. -/
structure World where
  /-- The local clock. -/
  now : PTime
  /-- Whether `std::ofstream(path)` ends up in a good state. -/
  canOpen : String → Bool
  /-- The characters written so far through each stream. -/
  written : OStream → String
  /-- The paths of the `std::ofstream` objects that were opened by
  `setLogFile` and are still alive, in allocation order; the handle of a
  stream is its position in this list. -/
  openFiles : List String

/-- The text `stream << text` adds to the stream. -/
def World.write (w : World) (stream : OStream) (text : String) : World :=
  { w with written := fun s => if s = stream then w.written s ++ text else w.written s }

/-- The data members of `bump::Log` (the two mutexes are left out). -/
structure Log where
  _isEnabled : Bool
  _logLevel : LogLevel
  _isDateTimeFormatEnabled : Bool
  _timestampFormat : TimestampFormat
  _logStream : OStream
  deriving DecidableEq, Repr

/-- The logger object and the world it lives in. -/
structure State where
  log : Log
  world : World

/-- Writes through `std::cout`, whatever the current log stream is. -/
def State.cout (s : State) (text : String) : State :=
  { s with world := s.world.write .cout text }

/-- The three variables `Log::Log` looks up: `environmentVariable name`,
empty when the variable is not set. -/
abbrev Environment := String → String

/-- Modelled from the spec: the macro is defined in `Log.h`, which is not
among the sources; it names the logging-enabled variable. -/
def BUMP_LOG_ENABLED : String := "BUMP_LOG_ENABLED"

/-- Modelled from the spec: the macro is defined in `Log.h`, which is not
among the sources; it names the minimum-severity variable. -/
def BUMP_LOG_LEVEL : String := "BUMP_LOG_LEVEL"

/-- Modelled from the spec: the macro is defined in `Log.h`, which is not
among the sources; it names the log-destination variable. -/
def BUMP_LOG_FILE : String := "BUMP_LOG_FILE"

/-- What `<< std::endl` adds to a stream. -/
def endl : String := "\n"

/-! ## The `bump::String` helpers used by `Log.cpp` -/

/-- Modelled from the spec: `String::toLowerCase` is defined in `String.cpp`,
which is not among the sources; the value is lower-cased before comparison. -/
def toLowerCase (s : String) : String :=
  String.mk (s.data.map Char.toLower)

/-- Modelled from the spec: the conversion `String(long)` is defined in
`String.cpp`, which is not among the sources; it is the decimal numeral. -/
def fromLong (n : Nat) : String :=
  String.mk (Nat.toDigits 10 n)

/-- Modelled from the spec: `String::toInt` is defined in `String.cpp`, which
is not among the sources; it reads a decimal numeral. -/
def toInt (s : String) : Nat :=
  s.data.foldl (fun acc c => acc * 10 + (c.toNat - 48)) 0

/-- One round of padding: `pad` goes in front while the string is too short. -/
def padLoop (pad : String) (length : Nat) : Nat → String → String
  | 0, s => s
  | fuel + 1, s => if s.length < length then padLoop pad length fuel (pad ++ s) else s

/-- Modelled from the spec: `String::padWithString` is defined in
`String.cpp`, which is not among the sources; the string is padded on the
left with `pad` up to `length` characters. -/
def padWithString (s pad : String) (length : Nat) : String :=
  padLoop pad length length s

/-- Replaces each `%k` (`k` a digit from 1 to 9) by the `k`-th argument;
`pending` says that the character just read was a `%` not yet written. -/
def argLoop (args : List String) : Bool → List Char → List Char
  | pending, [] => if pending then ['%'] else []
  | pending, c :: rest =>
    if pending then
      if '1' ≤ c ∧ c ≤ '9' then
        (args.getD (c.toNat - 49) "").data ++ argLoop args false rest
      else if c = '%' then
        '%' :: argLoop args true rest
      else
        '%' :: c :: argLoop args false rest
    else if c = '%' then
      argLoop args true rest
    else
      c :: argLoop args false rest

/-- Modelled from the spec: `String::arg` is defined in `String.cpp`, which
is not among the sources; the numbered place markers of the format are
replaced by the arguments, in order. -/
def arg (format : String) (args : List String) : String :=
  String.mk (argLoop args false format.data)

/-! ## `bump::Log` -/

/-- Method `Log::isLogLevelEnabled`, Log.cpp lines 129-140. -/
def Log.isLogLevelEnabled (self : Log) (logLevel : LogLevel) : Bool :=
  if !self._isEnabled then
    false
  else
    decide (logLevel ≤ self._logLevel)

/-- Method `Log::setLogFile`, Log.cpp lines 178-194.  A stream that failed to open
is deleted again, so the failing path leaves no object behind; a stream that
opened is never deleted. -/
def Log.setLogFile (filepath : String) (s : State) : Bool × State :=
  if !s.world.canOpen filepath then
    (false, s)
  else
    let logFile := OStream.file s.world.openFiles.length
    (true,
      { log := { s.log with _logStream := logFile }
        world :=
          { s.world with
            openFiles := s.world.openFiles ++ [filepath]
            written := fun t => if t = logFile then "" else s.world.written t } })

/-- Method `Log::setLogStream`, Log.cpp lines 196-200. -/
def Log.setLogStream (stream : OStream) (s : State) : State :=
  { s with log := { s.log with _logStream := stream } }

/-- Method `Log::setIsLogEnabled`, Log.cpp lines 117-121. -/
def Log.setIsLogEnabled (enabled : Bool) (s : State) : State :=
  { s with log := { s.log with _isEnabled := enabled } }

/-- Method `Log::isLogEnabled`, Log.cpp lines 123-127. -/
def Log.isLogEnabled (s : State) : Bool :=
  s.log._isEnabled

/-- Method `Log::setLogLevel`, Log.cpp lines 142-146. -/
def Log.setLogLevel (logLevel : LogLevel) (s : State) : State :=
  { s with log := { s.log with _logLevel := logLevel } }

/-- Method `Log::logLevel`, Log.cpp lines 148-152. -/
def Log.logLevel (s : State) : LogLevel :=
  s.log._logLevel

/-- Method `Log::setIsTimestampingEnabled`, Log.cpp lines 154-158. -/
def Log.setIsTimestampingEnabled (enabled : Bool) (s : State) : State :=
  { s with log := { s.log with _isDateTimeFormatEnabled := enabled } }

/-- Method `Log::isTimestampingEnabled`, Log.cpp lines 160-164. -/
def Log.isTimestampingEnabled (s : State) : Bool :=
  s.log._isDateTimeFormatEnabled

/-- Method `Log::setTimestampFormat`, Log.cpp lines 166-170. -/
def Log.setTimestampFormat (format : TimestampFormat) (s : State) : State :=
  { s with log := { s.log with _timestampFormat := format } }

/-- Method `Log::timestampFormat`, Log.cpp lines 172-176. -/
def Log.timestampFormat (s : State) : TimestampFormat :=
  s.log._timestampFormat

/-- Method `Log::convertTimeToString`, Log.cpp lines 225-271. -/
def Log.convertTimeToString (s : State) : String :=
  let now := s.world.now
  let year := fromLong now.year
  let month := fromLong now.month
  let day := fromLong now.day
  let hours := fromLong now.hours
  let minutes := fromLong now.minutes
  let seconds := fromLong now.seconds
  let am_pm := if toInt hours < 13 then "AM" else "PM"
  let hours := if toInt hours > 12 then fromLong (toInt hours - 12) else hours
  let month := padWithString month "0" 2
  let day := padWithString day "0" 2
  let hours := padWithString hours "0" 2
  let minutes := padWithString minutes "0" 2
  let seconds := padWithString seconds "0" 2
  if s.log._timestampFormat = .DATE_TIME_TIMESTAMP then
    arg "%1-%2-%3 %4:%5:%6:" [year, month, day, hours, minutes, seconds]
  else if s.log._timestampFormat = .DATE_TIME_WITH_AM_PM_TIMESTAMP then
    arg "%1-%2-%3 %4:%5:%6 %7:" [year, month, day, hours, minutes, seconds, am_pm]
  else if s.log._timestampFormat = .DATE_TIME_TIMESTAMP then
    arg "%1:%2:%3:" [hours, minutes, seconds]
  else
    arg "%1:%2:%3 %4:" [hours, minutes, seconds, am_pm]

/-- Method `Log::logStream`, Log.cpp lines 202-223: the stream it returns and the
state it leaves. -/
def Log.logStream (pre : String) (s : State) : OStream × State :=
  let ostream := s.log._logStream
  let s1 : State :=
    if s.log._isDateTimeFormatEnabled then
      { s with world := (s.world.write ostream (Log.convertTimeToString s)).write ostream " " }
    else
      s
  let s2 : State :=
    if pre ≠ "" then
      { s1 with world := s1.world.write ostream pre }
    else
      s1
  (s2.log._logStream, s2)

/-- The member initialisers of `Log::Log`, Log.cpp lines 25-29. -/
def Log.initial : Log :=
  { _isEnabled := true
    _logLevel := .WARNING_LVL
    _isDateTimeFormatEnabled := false
    _timestampFormat := .DATE_TIME_WITH_AM_PM_TIMESTAMP
    _logStream := .cout }

/-- Method `Log::Log`, Log.cpp lines 24-103. -/
def Log.Log (env : Environment) (w : World) : State :=
  let s0 : State := { log := Log.initial, world := w }
  let logEnabled := toLowerCase (env BUMP_LOG_ENABLED)
  if logEnabled = "no" ∨ logEnabled = "false" ∨ logEnabled = "nope" ∨ logEnabled = "disable" then
    ({ s0 with log := { s0.log with _isEnabled := false } } : State).cout
      ("[bump] Setting LOG_ENABLED to NO" ++ endl)
  else
    let logLevel := env BUMP_LOG_LEVEL
    let s1 : State :=
      if logLevel = "ALWAYS_LVL" then
        ({ s0 with log := { s0.log with _logLevel := .ALWAYS_LVL } } : State).cout
          ("[bump] Setting BUMP_LOG_LEVEL to ALWAYS" ++ endl)
      else if logLevel = "ERROR_LVL" then
        ({ s0 with log := { s0.log with _logLevel := .ERROR_LVL } } : State).cout
          ("[bump] Setting BUMP_LOG_LEVEL to ERROR" ++ endl)
      else if logLevel = "WARNING_LVL" then
        ({ s0 with log := { s0.log with _logLevel := .WARNING_LVL } } : State).cout
          ("[bump] Setting BUMP_LOG_LEVEL to WARNING" ++ endl)
      else if logLevel = "INFO_LVL" then
        ({ s0 with log := { s0.log with _logLevel := .INFO_LVL } } : State).cout
          ("[bump] Setting BUMP_LOG_LEVEL to INFO" ++ endl)
      else if logLevel = "DEBUG_LVL" then
        ({ s0 with log := { s0.log with _logLevel := .DEBUG_LVL } } : State).cout
          ("[bump] Setting BUMP_LOG_LEVEL to DEBUG" ++ endl)
      else if logLevel ≠ "" then
        s0.cout
          ("[bump] WARNING: Your BUMP_LOG_LEVEL environment variable: [" ++ logLevel
            ++ "] does not match any of the possible options: [ ALWAYS_LVL | ERROR_LVL | WARNING_LVL "
            ++ "| INFO_LVL | DEBUG_LVL ]" ++ endl)
      else
        s0
    let logFile := env BUMP_LOG_FILE
    if logFile ≠ "" then
      if logFile = "stderr" then
        { s1 with log := { s1.log with _logStream := .cerr } }
      else if logFile ≠ "stdout" then
        let r := Log.setLogFile logFile s1
        if r.1 then
          r.2.cout ("[bump] Setting BUMP_LOG_FILE to " ++ logFile ++ endl)
        else
          r.2.cout
            ("[bump] WARNING: Your BUMP_LOG_FILE environment variable: ["
              ++ logFile ++ "] could not be created or opened" ++ endl)
      else
        s1
    else
      s1

/-! ## The convenience functions, Log.cpp lines 280-323 -/

/-- Function `bumpALWAYS`, Log.cpp lines 280-287, run on the shared instance `s`. -/
def bumpALWAYS (message : String) (s : State) : State :=
  if s.log.isLogLevelEnabled .ALWAYS_LVL then
    let r := Log.logStream "" s
    { r.2 with world := (r.2.world.write r.1 message).write r.1 endl }
  else
    s

/-- Function `bumpERROR`, Log.cpp lines 289-296. -/
def bumpERROR (message : String) (s : State) : State :=
  if s.log.isLogLevelEnabled .ERROR_LVL then
    let r := Log.logStream "" s
    { r.2 with world := (r.2.world.write r.1 message).write r.1 endl }
  else
    s

/-- Function `bumpWARNING`, Log.cpp lines 298-305. -/
def bumpWARNING (message : String) (s : State) : State :=
  if s.log.isLogLevelEnabled .WARNING_LVL then
    let r := Log.logStream "" s
    { r.2 with world := (r.2.world.write r.1 message).write r.1 endl }
  else
    s

/-- Function `bumpINFO`, Log.cpp lines 307-314. -/
def bumpINFO (message : String) (s : State) : State :=
  if s.log.isLogLevelEnabled .INFO_LVL then
    let r := Log.logStream "" s
    { r.2 with world := (r.2.world.write r.1 message).write r.1 endl }
  else
    s

/-- Function `bumpDEBUG`, Log.cpp lines 316-323. -/
def bumpDEBUG (message : String) (s : State) : State :=
  if s.log.isLogLevelEnabled .DEBUG_LVL then
    let r := Log.logStream "" s
    { r.2 with world := (r.2.world.write r.1 message).write r.1 endl }
  else
    s

/-- The convenience function of a level: `bumpAt L` is `bump<L>`. -/
def bumpAt : LogLevel → String → State → State
  | .ALWAYS_LVL => bumpALWAYS
  | .ERROR_LVL => bumpERROR
  | .WARNING_LVL => bumpWARNING
  | .INFO_LVL => bumpINFO
  | .DEBUG_LVL => bumpDEBUG

/-! ## Concrete worlds and environments used as instances -/

/-- A world at 2012-12-03 09:05:07 in which only `ok.log` can be opened for
writing and nothing has been written yet. -/
def sampleWorld : World :=
  { now := ⟨2012, 12, 3, 9, 5, 7⟩
    canOpen := fun p => p == "ok.log"
    written := fun _ => ""
    openFiles := [] }

/-- The environment in which the three variables have the given values and
no other variable is set. -/
def sampleEnv (enabled level file : String) : Environment := fun name =>
  if name = BUMP_LOG_ENABLED then enabled
  else if name = BUMP_LOG_LEVEL then level
  else if name = BUMP_LOG_FILE then file
  else ""

/-- An enabled logger that writes to standard output with the given minimum
severity, in the sample world. -/
def sampleState (minSeverity : LogLevel) : State :=
  { log := { Log.initial with _logLevel := minSeverity }, world := sampleWorld }

/-! ## Claim-side vocabulary -/

/-- The name of a level, as `BUMP_LOG_LEVEL` spells it. -/
def LogLevel.name : LogLevel → String
  | .ALWAYS_LVL => "ALWAYS_LVL"
  | .ERROR_LVL => "ERROR_LVL"
  | .WARNING_LVL => "WARNING_LVL"
  | .INFO_LVL => "INFO_LVL"
  | .DEBUG_LVL => "DEBUG_LVL"

/-- The lower-cased value of `BUMP_LOG_ENABLED` is one of the negative tokens. -/
def disabledByEnv (env : Environment) : Prop :=
  toLowerCase (env BUMP_LOG_ENABLED) ∈ ["no", "false", "nope", "disable"]

instance (env : Environment) : Decidable (disabledByEnv env) :=
  inferInstanceAs (Decidable (_ ∈ _))

/-- The text `logStream` puts in front of the prefix: the formatted
timestamp and one space when timestamping is enabled, nothing otherwise. -/
def timestampText (s : State) : String :=
  if s.log._isDateTimeFormatEnabled then Log.convertTimeToString s ++ " " else ""

/-- The warning `Log::Log` prints for an unrecognised `BUMP_LOG_LEVEL`. -/
def logLevelWarning (value : String) : String :=
  "[bump] WARNING: Your BUMP_LOG_LEVEL environment variable: [" ++ value
    ++ "] does not match any of the possible options: [ ALWAYS_LVL | ERROR_LVL | WARNING_LVL "
    ++ "| INFO_LVL | DEBUG_LVL ]" ++ endl

/-- The warning `Log::Log` prints when the file of `BUMP_LOG_FILE` cannot be opened. -/
def logFileWarning (value : String) : String :=
  "[bump] WARNING: Your BUMP_LOG_FILE environment variable: ["
    ++ value ++ "] could not be created or opened" ++ endl

/-- The state `Log::Log` reaches after the `BUMP_LOG_LEVEL` block, Log.cpp
lines 43-80, when that variable has the value `logLevel`. -/
def afterLogLevel (logLevel : String) (w : World) : State :=
  let s0 : State := { log := Log.initial, world := w }
  if logLevel = "ALWAYS_LVL" then
    ({ s0 with log := { s0.log with _logLevel := .ALWAYS_LVL } } : State).cout
      ("[bump] Setting BUMP_LOG_LEVEL to ALWAYS" ++ endl)
  else if logLevel = "ERROR_LVL" then
    ({ s0 with log := { s0.log with _logLevel := .ERROR_LVL } } : State).cout
      ("[bump] Setting BUMP_LOG_LEVEL to ERROR" ++ endl)
  else if logLevel = "WARNING_LVL" then
    ({ s0 with log := { s0.log with _logLevel := .WARNING_LVL } } : State).cout
      ("[bump] Setting BUMP_LOG_LEVEL to WARNING" ++ endl)
  else if logLevel = "INFO_LVL" then
    ({ s0 with log := { s0.log with _logLevel := .INFO_LVL } } : State).cout
      ("[bump] Setting BUMP_LOG_LEVEL to INFO" ++ endl)
  else if logLevel = "DEBUG_LVL" then
    ({ s0 with log := { s0.log with _logLevel := .DEBUG_LVL } } : State).cout
      ("[bump] Setting BUMP_LOG_LEVEL to DEBUG" ++ endl)
  else if logLevel ≠ "" then
    s0.cout (logLevelWarning logLevel)
  else
    s0

/-- The state `Log::Log` reaches from `s1` through the `BUMP_LOG_FILE` block,
Log.cpp lines 81-102, when that variable has the value `logFile`. -/
def afterLogFile (logFile : String) (s1 : State) : State :=
  if logFile ≠ "" then
    if logFile = "stderr" then
      { s1 with log := { s1.log with _logStream := .cerr } }
    else if logFile ≠ "stdout" then
      let r := Log.setLogFile logFile s1
      if r.1 then
        r.2.cout ("[bump] Setting BUMP_LOG_FILE to " ++ logFile ++ endl)
      else
        r.2.cout (logFileWarning logFile)
    else
      s1
  else
    s1

/-- A call that replaces the sink: `setLogFile path` or `setLogStream stream`. -/
inductive SinkChange where
  | setLogFile (filepath : String)
  | setLogStream (stream : OStream)
  deriving DecidableEq, Repr

/-- The state after one sink-changing call. -/
def SinkChange.apply (s : State) : SinkChange → State
  | .setLogFile filepath => (Log.setLogFile filepath s).2
  | .setLogStream stream => Log.setLogStream stream s

/-- The state after a sequence of sink-changing calls, first call first. -/
def runSinkChanges (ops : List SinkChange) (s : State) : State :=
  ops.foldl SinkChange.apply s

/-- The paths of the `setLogFile` calls of a sequence that open their file. -/
def openedBy (canOpen : String → Bool) : List SinkChange → List String
  | [] => []
  | .setLogFile filepath :: ops =>
    if canOpen filepath then filepath :: openedBy canOpen ops else openedBy canOpen ops
  | .setLogStream _ :: ops => openedBy canOpen ops

/-- The sample world with the clock at the given hour, 2012-12-03 hh:05:07. -/
def sampleWorldAt (hours : Nat) : World :=
  { sampleWorld with now := { sampleWorld.now with hours := hours } }

/-- A logger with the given timestamp format in the sample world at the given hour. -/
def sampleClockState (format : TimestampFormat) (hours : Nat) : State :=
  { log := { Log.initial with _timestampFormat := format }, world := sampleWorldAt hours }

/-! ## Lemmas on streams -/

theorem World.written_write_same (w : World) (stream : OStream) (text : String) :
    (w.write stream text).written stream = w.written stream ++ text := by
  simp [World.write]

theorem World.written_write_other (w : World) (stream other : OStream) (text : String)
    (h : other ≠ stream) : (w.write stream text).written other = w.written other := by
  simp [World.write, h]

theorem World.write_write (w : World) (stream : OStream) (a b : String) :
    (w.write stream a).write stream b = w.write stream (a ++ b) := by
  simp only [World.write]
  congr 1
  funext t
  by_cases h : t = stream <;> simp [h, String.append_assoc]

theorem World.write_empty (w : World) (stream : OStream) : w.write stream "" = w := by
  cases w
  simp only [World.write]
  congr 1
  funext t
  by_cases h : t = stream <;> simp [h]

theorem append_line_ne_self (old text : String) : old ++ (text ++ endl) ≠ old := by
  intro h
  have hl := congrArg String.length h
  have he : endl.length = 1 := by decide
  simp only [String.length_append, he] at hl
  omega

theorem logStream_eq (pre : String) (s : State) :
    Log.logStream pre s =
      (s.log._logStream,
        { s with world := s.world.write s.log._logStream (timestampText s ++ pre) }) := by
  unfold Log.logStream timestampText
  by_cases ht : s.log._isDateTimeFormatEnabled = true <;> by_cases hp : pre = "" <;>
    simp [ht, hp, World.write_write, World.write_empty]

/-- The effect of any of the five convenience functions. -/
theorem bumpAt_eq (L : LogLevel) (message : String) (s : State) :
    bumpAt L message s =
      if s.log.isLogLevelEnabled L then
        { s with world := s.world.write s.log._logStream (timestampText s ++ (message ++ endl)) }
      else s := by
  cases L <;>
    simp only [bumpAt, bumpALWAYS, bumpERROR, bumpWARNING, bumpINFO, bumpDEBUG,
      logStream_eq, World.write_write, String.append_empty, String.append_assoc]

theorem isLogLevelEnabled_iff (self : Log) (L : LogLevel) :
    self.isLogLevelEnabled L = true ↔ (self._isEnabled = true ∧ L ≤ self._logLevel) := by
  unfold Log.isLogLevelEnabled
  cases self._isEnabled <;> simp

/-! ## The claims -/

/-- C1: for every level `L`, every minimum severity `M` and every value of
the enabled flag (and of the other fields), `isLogLevelEnabled L` is exactly
`enabled && L <= M` in the ordinal order ALWAYS < ERROR < WARNING < INFO <
DEBUG, and it is `false` for every `L` and `M` when the flag is `false`. -/
theorem C1_isLogLevelEnabled (enabled : Bool) (M L : LogLevel) (ts : Bool)
    (fmt : TimestampFormat) (sink : OStream) :
    Log.isLogLevelEnabled ⟨enabled, M, ts, fmt, sink⟩ L
        = (enabled && decide (L.ordinal ≤ M.ordinal))
      ∧ Log.isLogLevelEnabled ⟨false, M, ts, fmt, sink⟩ L = false
      ∧ (LogLevel.ALWAYS_LVL.ordinal < LogLevel.ERROR_LVL.ordinal
          ∧ LogLevel.ERROR_LVL.ordinal < LogLevel.WARNING_LVL.ordinal
          ∧ LogLevel.WARNING_LVL.ordinal < LogLevel.INFO_LVL.ordinal
          ∧ LogLevel.INFO_LVL.ordinal < LogLevel.DEBUG_LVL.ordinal) := by
  refine ⟨?_, ?_, by decide⟩
  · cases enabled <;> rfl
  · rfl

/-- C2: for every logger state, message and level `L`, `bump<L>(message)`
changes what has been written to the current sink if and only if the logger
is enabled and `L <= minSeverity`; it never changes a configuration field;
when it writes, it appends the timestamp text, the message and a line
terminator to the sink and nothing else; otherwise it changes nothing. -/
theorem C2_bump_writes_iff_enabled (L : LogLevel) (message : String) (s : State) :
    ((bumpAt L message s).world.written s.log._logStream ≠ s.world.written s.log._logStream
        ↔ (s.log._isEnabled = true ∧ L ≤ s.log._logLevel))
      ∧ (bumpAt L message s).log = s.log
      ∧ bumpAt L message s =
          if s.log._isEnabled = true ∧ L ≤ s.log._logLevel then
            { s with world :=
                s.world.write s.log._logStream (timestampText s ++ (message ++ endl)) }
          else s := by
  rw [bumpAt_eq]
  by_cases h : s.log.isLogLevelEnabled L = true
  · have h' := (isLogLevelEnabled_iff s.log L).1 h
    simp only [h, h', if_true, and_self, iff_true, true_and, World.written_write_same]
    refine ⟨?_, trivial⟩
    have hne := append_line_ne_self (s.world.written s.log._logStream)
      (timestampText s ++ message)
    rwa [String.append_assoc] at hne
  · have h' : ¬ (s.log._isEnabled = true ∧ L ≤ s.log._logLevel) :=
      fun k => h ((isLogLevelEnabled_iff s.log L).2 k)
    simp [h, h']

/-- C2, instance: with logging enabled and `minSeverity = WARNING_LVL`,
`bumpINFO` and `bumpDEBUG` write nothing while `bumpALWAYS`, `bumpERROR` and
`bumpWARNING` write the message and a line terminator; with `minSeverity =
ALWAYS_LVL` only `bumpALWAYS` writes. -/
theorem C2_bump_writes_iff_enabled_witness :
    (bumpAt .INFO_LVL "m" (sampleState .WARNING_LVL)).world.written .cout = ""
      ∧ (bumpAt .DEBUG_LVL "m" (sampleState .WARNING_LVL)).world.written .cout = ""
      ∧ (bumpAt .ALWAYS_LVL "m" (sampleState .WARNING_LVL)).world.written .cout = "m\n"
      ∧ (bumpAt .ERROR_LVL "m" (sampleState .WARNING_LVL)).world.written .cout = "m\n"
      ∧ (bumpAt .WARNING_LVL "m" (sampleState .WARNING_LVL)).world.written .cout = "m\n"
      ∧ (bumpAt .ALWAYS_LVL "m" (sampleState .ALWAYS_LVL)).world.written .cout = "m\n"
      ∧ (bumpAt .ERROR_LVL "m" (sampleState .ALWAYS_LVL)).world.written .cout = ""
      ∧ (bumpAt .WARNING_LVL "m" (sampleState .ALWAYS_LVL)).world.written .cout = ""
      ∧ (bumpAt .INFO_LVL "m" (sampleState .ALWAYS_LVL)).world.written .cout = ""
      ∧ (bumpAt .DEBUG_LVL "m" (sampleState .ALWAYS_LVL)).world.written .cout = "" := by
  refine ⟨?_, ?_, ?_, ?_, ?_, ?_, ?_, ?_, ?_, ?_⟩ <;>
    first
      | (rw [(C2_bump_writes_iff_enabled _ "m" (sampleState .WARNING_LVL)).2.2]; decide)
      | (rw [(C2_bump_writes_iff_enabled _ "m" (sampleState .ALWAYS_LVL)).2.2]; decide)

/-- C3: for every logger state and every path that cannot be opened for
writing, `setLogFile path` returns `false` and leaves the whole state as it
was, so the sink and the four configuration fields keep their values, and
any message logged afterwards has the effect it would have had before. -/
theorem C3_setLogFile_failure_keeps_state (filepath : String) (s : State)
    (hfail : s.world.canOpen filepath = false) :
    (Log.setLogFile filepath s).1 = false
      ∧ (Log.setLogFile filepath s).2 = s
      ∧ (Log.setLogFile filepath s).2.log._logStream = s.log._logStream
      ∧ (∀ (L : LogLevel) (message : String),
          bumpAt L message (Log.setLogFile filepath s).2 = bumpAt L message s)
      ∧ (∀ pre : String,
          (Log.logStream pre (Log.setLogFile filepath s).2).1 = s.log._logStream) := by
  have h : Log.setLogFile filepath s = (false, s) := by
    simp [Log.setLogFile, hfail]
  simp [h, logStream_eq]

/-- C3, instance: `missing/dir.log` cannot be opened in the sample world. -/
theorem C3_setLogFile_failure_keeps_state_witness :
    sampleWorld.canOpen "missing/dir.log" = false
      ∧ (Log.setLogFile "missing/dir.log" (sampleState .WARNING_LVL)).1 = false
      ∧ (Log.setLogFile "missing/dir.log" (sampleState .WARNING_LVL)).2.log._logStream
          = OStream.cout :=
  ⟨by decide,
    (C3_setLogFile_failure_keeps_state "missing/dir.log" (sampleState .WARNING_LVL)
      (by decide)).1,
    (C3_setLogFile_failure_keeps_state "missing/dir.log" (sampleState .WARNING_LVL)
      (by decide)).2.2.1⟩

/-! ## Lemmas on `Log::Log` -/

theorem disabledByEnv_iff (env : Environment) :
    disabledByEnv env ↔
      (toLowerCase (env BUMP_LOG_ENABLED) = "no" ∨ toLowerCase (env BUMP_LOG_ENABLED) = "false"
        ∨ toLowerCase (env BUMP_LOG_ENABLED) = "nope"
        ∨ toLowerCase (env BUMP_LOG_ENABLED) = "disable") := by
  simp [disabledByEnv]

theorem Log_of_disabled (env : Environment) (w : World) (h : disabledByEnv env) :
    Log.Log env w =
      { log := { Log.initial with _isEnabled := false }
        world := w.write .cout ("[bump] Setting LOG_ENABLED to NO" ++ endl) } := by
  have h' := (disabledByEnv_iff env).1 h
  simp only [Log.Log, h', if_true, State.cout]

theorem Log_of_not_disabled (env : Environment) (w : World) (h : ¬ disabledByEnv env) :
    Log.Log env w = afterLogFile (env BUMP_LOG_FILE) (afterLogLevel (env BUMP_LOG_LEVEL) w) := by
  have h' := fun k => h ((disabledByEnv_iff env).2 k)
  unfold Log.Log
  rw [if_neg h']
  rfl

theorem afterLogLevel_isEnabled (logLevel : String) (w : World) :
    (afterLogLevel logLevel w).log._isEnabled = true := by
  unfold afterLogLevel
  split_ifs <;> rfl

theorem afterLogLevel_logStream (logLevel : String) (w : World) :
    (afterLogLevel logLevel w).log._logStream = .cout := by
  unfold afterLogLevel
  split_ifs <;> rfl

theorem afterLogLevel_openFiles (logLevel : String) (w : World) :
    (afterLogLevel logLevel w).world.openFiles = w.openFiles := by
  unfold afterLogLevel
  split_ifs <;> rfl

theorem afterLogLevel_canOpen (logLevel : String) (w : World) :
    (afterLogLevel logLevel w).world.canOpen = w.canOpen := by
  unfold afterLogLevel
  split_ifs <;> rfl

theorem afterLogLevel_empty (w : World) :
    afterLogLevel "" w = { log := Log.initial, world := w } := by
  rfl

theorem afterLogLevel_unrecognised (logLevel : String) (w : World) (hne : logLevel ≠ "")
    (hnot : ∀ L : LogLevel, logLevel ≠ L.name) :
    afterLogLevel logLevel w
      = { log := Log.initial, world := w.write .cout (logLevelWarning logLevel) } := by
  have h1 := hnot .ALWAYS_LVL
  have h2 := hnot .ERROR_LVL
  have h3 := hnot .WARNING_LVL
  have h4 := hnot .INFO_LVL
  have h5 := hnot .DEBUG_LVL
  simp only [LogLevel.name] at h1 h2 h3 h4 h5
  unfold afterLogLevel
  rw [if_neg h1, if_neg h2, if_neg h3, if_neg h4, if_neg h5, if_pos hne]
  rfl

theorem afterLogFile_isEnabled (logFile : String) (s1 : State) :
    (afterLogFile logFile s1).log._isEnabled = s1.log._isEnabled := by
  unfold afterLogFile Log.setLogFile
  split_ifs <;> rfl

theorem afterLogFile_logLevel (logFile : String) (s1 : State) :
    (afterLogFile logFile s1).log._logLevel = s1.log._logLevel := by
  unfold afterLogFile Log.setLogFile
  split_ifs <;> rfl

theorem afterLogFile_empty (s1 : State) : afterLogFile "" s1 = s1 := by
  rfl

theorem Log_isEnabled_of_not_disabled (env : Environment) (w : World)
    (h : ¬ disabledByEnv env) : (Log.Log env w).log._isEnabled = true := by
  rw [Log_of_not_disabled env w h, afterLogFile_isEnabled, afterLogLevel_isEnabled]

/-- C4: the constructed logger is disabled exactly when the lower-cased
`BUMP_LOG_ENABLED` is one of `no`, `false`, `nope`, `disable`; and then the
result does not depend on the other two variables: the minimum severity is
`WARNING_LVL`, the sink is standard output, no file is opened, only the
notice goes to standard output, and no level is enabled. -/
theorem C4_disabled_by_environment (env : Environment) (w : World) :
    ((Log.Log env w).log._isEnabled = false ↔ disabledByEnv env)
      ∧ (disabledByEnv env →
          (Log.Log env w).log._logLevel = .WARNING_LVL
          ∧ (Log.Log env w).log._logStream = .cout
          ∧ (Log.Log env w).world.openFiles = w.openFiles
          ∧ (Log.Log env w).world = w.write .cout ("[bump] Setting LOG_ENABLED to NO" ++ endl)
          ∧ (∀ L : LogLevel, (Log.Log env w).log.isLogLevelEnabled L = false)
          ∧ (∀ env' : Environment, env' BUMP_LOG_ENABLED = env BUMP_LOG_ENABLED →
              Log.Log env' w = Log.Log env w)) := by
  refine ⟨?_, ?_⟩
  · constructor
    · intro h
      by_contra hnd
      rw [Log_isEnabled_of_not_disabled env w hnd] at h
      exact Bool.noConfusion h
    · intro h
      rw [Log_of_disabled env w h]
  · intro h
    have h2 : ∀ env' : Environment, env' BUMP_LOG_ENABLED = env BUMP_LOG_ENABLED →
        Log.Log env' w = Log.Log env w := by
      intro env' he
      have h' : disabledByEnv env' := by
        unfold disabledByEnv at h ⊢
        rw [he]
        exact h
      rw [Log_of_disabled env w h, Log_of_disabled env' w h']
    rw [Log_of_disabled env w h] at h2 ⊢
    refine ⟨rfl, rfl, rfl, rfl, ?_, h2⟩
    intro L
    rfl

/-- C4, instance: `BUMP_LOG_ENABLED = "NO"` (and likewise `"False"`)
disables the logger whatever the other two variables say. -/
theorem C4_disabled_by_environment_witness :
    disabledByEnv (sampleEnv "NO" "DEBUG_LVL" "ok.log")
      ∧ disabledByEnv (sampleEnv "False" "" "")
      ∧ (Log.Log (sampleEnv "NO" "DEBUG_LVL" "ok.log") sampleWorld).log._isEnabled = false
      ∧ (Log.Log (sampleEnv "NO" "DEBUG_LVL" "ok.log") sampleWorld).log._logLevel
          = LogLevel.WARNING_LVL
      ∧ (Log.Log (sampleEnv "NO" "DEBUG_LVL" "ok.log") sampleWorld).log._logStream
          = OStream.cout
      ∧ (Log.Log (sampleEnv "NO" "DEBUG_LVL" "ok.log") sampleWorld).world.openFiles = []
      ∧ (Log.Log (sampleEnv "NO" "DEBUG_LVL" "ok.log") sampleWorld).log.isLogLevelEnabled
          .ALWAYS_LVL = false :=
  have hd : disabledByEnv (sampleEnv "NO" "DEBUG_LVL" "ok.log") := by decide
  have h := C4_disabled_by_environment (sampleEnv "NO" "DEBUG_LVL" "ok.log") sampleWorld
  ⟨hd, by decide, h.1.2 hd, (h.2 hd).1, (h.2 hd).2.1, (h.2 hd).2.2.1,
    (h.2 hd).2.2.2.2.1 .ALWAYS_LVL⟩

/-- C6: when logging is not disabled and `BUMP_LOG_LEVEL` is non-empty but
none of the five level names, the constructor writes the warning naming the
value to standard output, keeps `minSeverity = WARNING_LVL`, and goes on
exactly as the constructor does with `BUMP_LOG_LEVEL` unset (environment
`env0`) once that warning is on standard output; with `BUMP_LOG_LEVEL` unset
the minimum severity is `WARNING_LVL` and standard output receives only what
the `BUMP_LOG_FILE` block prints, so no warning about the level. -/
theorem C6_unrecognised_level_warns (env env0 : Environment) (w : World)
    (hnd : ¬ disabledByEnv env)
    (hne : env BUMP_LOG_LEVEL ≠ "")
    (hnot : ∀ L : LogLevel, env BUMP_LOG_LEVEL ≠ L.name)
    (hE : env0 BUMP_LOG_ENABLED = env BUMP_LOG_ENABLED)
    (hL : env0 BUMP_LOG_LEVEL = "")
    (hF : env0 BUMP_LOG_FILE = env BUMP_LOG_FILE) :
    (Log.Log env w).log._logLevel = .WARNING_LVL
      ∧ Log.Log env w = Log.Log env0 (w.write .cout (logLevelWarning (env BUMP_LOG_LEVEL)))
      ∧ (∃ rest : String, (Log.Log env w).world.written .cout
          = w.written .cout ++ logLevelWarning (env BUMP_LOG_LEVEL) ++ rest)
      ∧ (Log.Log env0 w).log._logLevel = .WARNING_LVL
      ∧ (Log.Log env0 w).world.written .cout
          = w.written .cout ++
              (if env BUMP_LOG_FILE = "" ∨ env BUMP_LOG_FILE = "stderr"
                  ∨ env BUMP_LOG_FILE = "stdout" then ""
               else if w.canOpen (env BUMP_LOG_FILE) then
                 "[bump] Setting BUMP_LOG_FILE to " ++ env BUMP_LOG_FILE ++ endl
               else logFileWarning (env BUMP_LOG_FILE)) := by
  have hnd0 : ¬ disabledByEnv env0 := by
    unfold disabledByEnv at hnd ⊢
    rw [hE]
    exact hnd
  have hcout : ∀ v : World, (Log.Log env0 v).world.written .cout
      = v.written .cout ++
              (if env BUMP_LOG_FILE = "" ∨ env BUMP_LOG_FILE = "stderr"
                  ∨ env BUMP_LOG_FILE = "stdout" then ""
               else if v.canOpen (env BUMP_LOG_FILE) then
                 "[bump] Setting BUMP_LOG_FILE to " ++ env BUMP_LOG_FILE ++ endl
               else logFileWarning (env BUMP_LOG_FILE)) := by
    intro v
    rw [Log_of_not_disabled env0 v hnd0, hL, hF, afterLogLevel_empty]
    unfold afterLogFile Log.setLogFile
    by_cases h1 : env BUMP_LOG_FILE = ""
    · simp [h1]
    · by_cases h2 : env BUMP_LOG_FILE = "stderr"
      · simp [h2]
      · by_cases h3 : env BUMP_LOG_FILE = "stdout"
        · simp [h3]
        · by_cases h4 : v.canOpen (env BUMP_LOG_FILE) = true
          · simp [h1, h2, h3, h4, State.cout, World.write]
          · simp [h1, h2, h3, h4, State.cout, World.write]
  have hrun : Log.Log env w
      = Log.Log env0 (w.write .cout (logLevelWarning (env BUMP_LOG_LEVEL))) := by
    rw [Log_of_not_disabled env w hnd, Log_of_not_disabled env0 _ hnd0, hL, hF,
      afterLogLevel_empty, afterLogLevel_unrecognised _ w hne hnot]
  refine ⟨?_, hrun, ?_, ?_, hcout w⟩
  · rw [Log_of_not_disabled env w hnd, afterLogFile_logLevel,
      afterLogLevel_unrecognised _ w hne hnot]
    rfl
  · rw [hrun, hcout, World.written_write_same]
    exact ⟨_, rfl⟩
  · rw [Log_of_not_disabled env0 w hnd0, afterLogFile_logLevel, hL, afterLogLevel_empty]
    rfl

/-- C6, instance: `BUMP_LOG_LEVEL = "VERBOSE"` leaves `WARNING_LVL` in
effect (and so does the wrong letter case `debug_lvl`). -/
theorem C6_unrecognised_level_warns_witness :
    ¬ disabledByEnv (sampleEnv "" "VERBOSE" "")
      ∧ (Log.Log (sampleEnv "" "VERBOSE" "") sampleWorld).log._logLevel
          = LogLevel.WARNING_LVL
      ∧ (∃ rest : String,
          (Log.Log (sampleEnv "" "VERBOSE" "") sampleWorld).world.written .cout
            = sampleWorld.written .cout ++ logLevelWarning "VERBOSE" ++ rest)
      ∧ (Log.Log (sampleEnv "" "debug_lvl" "") sampleWorld).log._logLevel
          = LogLevel.WARNING_LVL :=
  have h := C6_unrecognised_level_warns (sampleEnv "" "VERBOSE" "") (sampleEnv "" "" "")
    sampleWorld (by decide) (by decide) (by intro L; cases L <;> decide) rfl rfl rfl
  ⟨by decide, h.1, h.2.2.1, by decide⟩

/-- C7: when the three variables are unset (each lookup is empty), the
constructed logger is enabled, has `minSeverity = WARNING_LVL`, no
timestamping and standard output as sink, and the world is untouched:
nothing has been written to any stream and no file has been opened. -/
theorem C7_defaults_when_unset (env : Environment) (w : World)
    (hE : env BUMP_LOG_ENABLED = "") (hL : env BUMP_LOG_LEVEL = "")
    (hF : env BUMP_LOG_FILE = "") :
    (Log.Log env w).log._isEnabled = true
      ∧ (Log.Log env w).log._logLevel = .WARNING_LVL
      ∧ (Log.Log env w).log._isDateTimeFormatEnabled = false
      ∧ (Log.Log env w).log._logStream = .cout
      ∧ (Log.Log env w).world = w
      ∧ (∀ stream : OStream, (Log.Log env w).world.written stream = w.written stream) := by
  have hnd : ¬ disabledByEnv env := by
    unfold disabledByEnv
    rw [hE]
    decide
  rw [Log_of_not_disabled env w hnd, hL, hF, afterLogFile_empty, afterLogLevel_empty]
  exact ⟨rfl, rfl, rfl, rfl, rfl, fun _ => rfl⟩

/-- C7, instance: the environment with no variable set. -/
theorem C7_defaults_when_unset_witness :
    sampleEnv "" "" "" BUMP_LOG_ENABLED = ""
      ∧ (Log.Log (sampleEnv "" "" "") sampleWorld).log._isEnabled = true
      ∧ (Log.Log (sampleEnv "" "" "") sampleWorld).log._logLevel = LogLevel.WARNING_LVL
      ∧ (Log.Log (sampleEnv "" "" "") sampleWorld).log._logStream = OStream.cout
      ∧ (Log.Log (sampleEnv "" "" "") sampleWorld).world.written .cout = "" :=
  have h := C7_defaults_when_unset (sampleEnv "" "" "") sampleWorld rfl rfl rfl
  ⟨rfl, h.1, h.2.1, h.2.2.2.1, h.2.2.2.2.2 .cout⟩

/-- C8: when logging is not disabled, with `env0` the same environment but
`BUMP_LOG_FILE` unset: an empty or `"stdout"` value of `BUMP_LOG_FILE` gives
the same result as `env0`, with standard output as sink, no file opened and
nothing more written to standard output; every other value except `"stderr"`
is handed to `setLogFile`; if the open fails the result is that of `env0`
plus the warning naming the value, which is appended to what standard output
holds after the `env0` run while every other stream is as after that run (so
the sink is standard output and enabled and minSeverity are as with `env0`);
if the open succeeds the sink is the newly opened file, which is empty, and
standard output receives the notice naming the file. -/
theorem C8_log_file_from_environment (env env0 : Environment) (w : World)
    (hnd : ¬ disabledByEnv env)
    (hE : env0 BUMP_LOG_ENABLED = env BUMP_LOG_ENABLED)
    (hL : env0 BUMP_LOG_LEVEL = env BUMP_LOG_LEVEL)
    (hF : env0 BUMP_LOG_FILE = "") :
    ((env BUMP_LOG_FILE = "" ∨ env BUMP_LOG_FILE = "stdout") →
        Log.Log env w = Log.Log env0 w
        ∧ (Log.Log env w).log._logStream = .cout
        ∧ (Log.Log env w).world.openFiles = w.openFiles
        ∧ (Log.Log env w).world.written .cout = (Log.Log env0 w).world.written .cout)
      ∧ ((env BUMP_LOG_FILE ≠ "" ∧ env BUMP_LOG_FILE ≠ "stdout"
            ∧ env BUMP_LOG_FILE ≠ "stderr") →
          Log.Log env w =
              (Log.setLogFile (env BUMP_LOG_FILE) (Log.Log env0 w)).2.cout
                (if (Log.setLogFile (env BUMP_LOG_FILE) (Log.Log env0 w)).1 then
                  "[bump] Setting BUMP_LOG_FILE to " ++ env BUMP_LOG_FILE ++ endl
                 else logFileWarning (env BUMP_LOG_FILE))
          ∧ (w.canOpen (env BUMP_LOG_FILE) = false →
              Log.Log env w = (Log.Log env0 w).cout (logFileWarning (env BUMP_LOG_FILE))
              ∧ (Log.Log env w).log._logStream = .cout
              ∧ (Log.Log env w).log._isEnabled = (Log.Log env0 w).log._isEnabled
              ∧ (Log.Log env w).log._logLevel = (Log.Log env0 w).log._logLevel
              ∧ (Log.Log env w).world.openFiles = w.openFiles
              ∧ (Log.Log env w).world.written .cout
                  = (Log.Log env0 w).world.written .cout
                      ++ ("[bump] WARNING: Your BUMP_LOG_FILE environment variable: ["
                          ++ env BUMP_LOG_FILE ++ "] could not be created or opened" ++ endl)
              ∧ (∀ other : OStream, other ≠ .cout →
                  (Log.Log env w).world.written other
                    = (Log.Log env0 w).world.written other))
          ∧ (w.canOpen (env BUMP_LOG_FILE) = true →
              (Log.Log env w).log._logStream = .file w.openFiles.length
              ∧ (Log.Log env w).world.openFiles = w.openFiles ++ [env BUMP_LOG_FILE]
              ∧ (Log.Log env w).log._isEnabled = (Log.Log env0 w).log._isEnabled
              ∧ (Log.Log env w).log._logLevel = (Log.Log env0 w).log._logLevel
              ∧ (Log.Log env w).world.written .cout
                  = (Log.Log env0 w).world.written .cout
                      ++ ("[bump] Setting BUMP_LOG_FILE to " ++ env BUMP_LOG_FILE ++ endl)
              ∧ (Log.Log env w).world.written (.file w.openFiles.length) = "")) := by
  have hnd0 : ¬ disabledByEnv env0 := by
    unfold disabledByEnv at hnd ⊢
    rw [hE]
    exact hnd
  rw [Log_of_not_disabled env w hnd, Log_of_not_disabled env0 w hnd0, hL, hF,
    afterLogFile_empty]
  have hcan := afterLogLevel_canOpen (env BUMP_LOG_LEVEL) w
  have hopen := afterLogLevel_openFiles (env BUMP_LOG_LEVEL) w
  have hsink := afterLogLevel_logStream (env BUMP_LOG_LEVEL) w
  refine ⟨?_, ?_⟩
  · rintro (h | h)
    · rw [h]
      exact ⟨rfl, hsink, hopen, rfl⟩
    · rw [h]
      exact ⟨rfl, hsink, hopen, rfl⟩
  · rintro ⟨h1, h2, h3⟩
    refine ⟨?_, ?_, ?_⟩
    · unfold afterLogFile
      rw [if_pos h1, if_neg h3, if_pos h2]
      by_cases hr : (Log.setLogFile (env BUMP_LOG_FILE)
          (afterLogLevel (env BUMP_LOG_LEVEL) w)).1 = true
      · simp only [hr, if_true]
      · have hr' : (Log.setLogFile (env BUMP_LOG_FILE)
            (afterLogLevel (env BUMP_LOG_LEVEL) w)).1 = false := by
          simpa using hr
        simp only [hr', Bool.false_eq_true, if_false]
    · intro hc
      have hc' : (afterLogLevel (env BUMP_LOG_LEVEL) w).world.canOpen (env BUMP_LOG_FILE)
          = false := by rw [hcan]; exact hc
      have hrun : afterLogFile (env BUMP_LOG_FILE) (afterLogLevel (env BUMP_LOG_LEVEL) w)
          = (afterLogLevel (env BUMP_LOG_LEVEL) w).cout
              (logFileWarning (env BUMP_LOG_FILE)) := by
        unfold afterLogFile
        rw [if_pos h1, if_neg h3, if_pos h2]
        simp [Log.setLogFile, hc']
      rw [hrun]
      refine ⟨rfl, hsink, rfl, rfl, hopen, ?_, ?_⟩
      · exact World.written_write_same _ _ _
      · intro other hne
        exact World.written_write_other _ _ _ _ hne
    · intro hc
      have hc' : (afterLogLevel (env BUMP_LOG_LEVEL) w).world.canOpen (env BUMP_LOG_FILE)
          = true := by rw [hcan]; exact hc
      unfold afterLogFile
      rw [if_pos h1, if_neg h3, if_pos h2]
      simp [Log.setLogFile, hc', State.cout, World.write, hopen]

/-- C8, instance: a path that cannot be opened leaves standard output as the
sink and prints the warning there; a path that can be opened becomes the
sink and the notice goes to standard output. -/
theorem C8_log_file_from_environment_witness :
    ¬ disabledByEnv (sampleEnv "" "" "missing/dir.log")
      ∧ (Log.Log (sampleEnv "" "" "missing/dir.log") sampleWorld).log._logStream
          = OStream.cout
      ∧ (Log.Log (sampleEnv "" "" "missing/dir.log") sampleWorld).world.openFiles = []
      ∧ (Log.Log (sampleEnv "" "" "missing/dir.log") sampleWorld).world.written .cout
          = "[bump] WARNING: Your BUMP_LOG_FILE environment variable: [missing/dir.log] could not be created or opened\n"
      ∧ (Log.Log (sampleEnv "" "" "ok.log") sampleWorld).log._logStream = OStream.file 0
      ∧ (Log.Log (sampleEnv "" "" "ok.log") sampleWorld).world.openFiles = ["ok.log"]
      ∧ (Log.Log (sampleEnv "" "" "ok.log") sampleWorld).world.written .cout
          = "[bump] Setting BUMP_LOG_FILE to ok.log\n"
      ∧ (Log.Log (sampleEnv "" "" "stdout") sampleWorld).world.written .cout = "" :=
  have hbad := (C8_log_file_from_environment (sampleEnv "" "" "missing/dir.log")
    (sampleEnv "" "" "") sampleWorld (by decide) rfl rfl rfl).2
      ⟨by decide, by decide, by decide⟩
  have hgood := (C8_log_file_from_environment (sampleEnv "" "" "ok.log")
    (sampleEnv "" "" "") sampleWorld (by decide) rfl rfl rfl).2
      ⟨by decide, by decide, by decide⟩
  have hout := (C8_log_file_from_environment (sampleEnv "" "" "stdout")
    (sampleEnv "" "" "") sampleWorld (by decide) rfl rfl rfl).1 (Or.inr (by decide))
  ⟨by decide, (hbad.2.1 (by decide)).2.1, (hbad.2.1 (by decide)).2.2.2.2.1,
    (hbad.2.1 (by decide)).2.2.2.2.2.1.trans (by decide),
    (hgood.2.2 (by decide)).1, (hgood.2.2 (by decide)).2.1,
    (hgood.2.2 (by decide)).2.2.2.2.1.trans (by decide),
    hout.2.2.2.trans (by decide)⟩

/-- C9: for every logger state and every prefix, `logStream prefix` returns
the current sink, changes no field of the logger, and appends to the sink
exactly the timestamp text (the formatted timestamp and one space when
timestamping is enabled, nothing otherwise) followed by the prefix, leaving
every other stream as it was; with timestamping disabled and an empty prefix
the state is unchanged. -/
theorem C9_logStream_appends_timestamp_then_pre_text (pre : String) (s : State) :
    (Log.logStream pre s).1 = s.log._logStream
      ∧ (Log.logStream pre s).2.log = s.log
      ∧ (Log.logStream pre s).2.world.written s.log._logStream
          = s.world.written s.log._logStream
              ++ ((if s.log._isDateTimeFormatEnabled then Log.convertTimeToString s ++ " "
                    else "") ++ pre)
      ∧ (Log.logStream pre s).2.world
          = s.world.write s.log._logStream (timestampText s ++ pre)
      ∧ (∀ other : OStream, other ≠ s.log._logStream →
          (Log.logStream pre s).2.world.written other = s.world.written other)
      ∧ Log.logStream ""
            { s with log := { s.log with _isDateTimeFormatEnabled := false } }
          = (s.log._logStream,
              { s with log := { s.log with _isDateTimeFormatEnabled := false } }) := by
  refine ⟨?_, ?_, ?_, ?_, ?_, ?_⟩
  · rw [logStream_eq]
  · rw [logStream_eq]
  · rw [logStream_eq]
    exact World.written_write_same _ _ _
  · rw [logStream_eq]
  · intro other h
    rw [logStream_eq]
    exact World.written_write_other _ _ _ _ h
  · rw [logStream_eq]
    simp [timestampText, World.write_empty]

/-- C9, instance: with timestamping enabled at 2012-12-03 09:05:07 and the
prefix `[io] `, the sink receives the timestamp, one space and the prefix. -/
theorem C9_logStream_appends_timestamp_then_pre_text_witness :
    (Log.logStream "[io] "
        { log := { Log.initial with _isDateTimeFormatEnabled := true },
          world := sampleWorld }).2.world.written .cout
      = "2012-12-03 09:05:07 AM: [io] " :=
  (C9_logStream_appends_timestamp_then_pre_text "[io] "
    { log := { Log.initial with _isDateTimeFormatEnabled := true },
      world := sampleWorld }).2.2.1.trans (by decide)

/-- C10: in `convertTimeToString` the time-only format is not reachable: the
third test repeats `DATE_TIME_TIMESTAMP`, so a logger whose format is
`TIME_TIMESTAMP` falls through to the last branch and, at every clock time,
produces the same string as `TIME_WITH_AM_PM_TIMESTAMP`; at 09:05:07 that is
`09:05:07 AM:` and not `09:05:07:`. -/
theorem C10_time_only_format_shadowed :
    (∀ (log : Log) (w : World),
        Log.convertTimeToString ⟨{ log with _timestampFormat := .TIME_TIMESTAMP }, w⟩
          = Log.convertTimeToString
              ⟨{ log with _timestampFormat := .TIME_WITH_AM_PM_TIMESTAMP }, w⟩)
      ∧ Log.convertTimeToString
            ⟨{ Log.initial with _timestampFormat := .TIME_TIMESTAMP }, sampleWorld⟩
          = "09:05:07 AM:"
      ∧ Log.convertTimeToString
            ⟨{ Log.initial with _timestampFormat := .TIME_TIMESTAMP }, sampleWorld⟩
          ≠ "09:05:07:"
      ∧ Log.convertTimeToString
            ⟨{ Log.initial with _timestampFormat := .DATE_TIME_TIMESTAMP }, sampleWorld⟩
          = "2012-12-03 09:05:07:"
      ∧ Log.convertTimeToString
            ⟨{ Log.initial with _timestampFormat := .DATE_TIME_WITH_AM_PM_TIMESTAMP },
              sampleWorld⟩
          = "2012-12-03 09:05:07 AM:"
      ∧ Log.convertTimeToString
            ⟨{ Log.initial with _timestampFormat := .TIME_WITH_AM_PM_TIMESTAMP },
              sampleWorld⟩
          = "09:05:07 AM:" := by
  refine ⟨?_, by decide, by decide, by decide, by decide, by decide⟩
  intro log w
  rfl

/-- C11: for every logger state and each of the four timestamp formats `F`,
`timestampFormat()` after `setTimestampFormat(F)` returns `F`; the setter
changes no other field and writes nothing. -/
theorem C11_timestampFormat_round_trip (F : TimestampFormat) (s : State) :
    Log.timestampFormat (Log.setTimestampFormat F s) = F
      ∧ (Log.setTimestampFormat F s).log = { s.log with _timestampFormat := F }
      ∧ (Log.setTimestampFormat F s).world = s.world := by
  exact ⟨rfl, rfl, rfl⟩

/-! ## Lemmas on sink changes -/

theorem setLogFile_canOpen (filepath : String) (s : State) :
    (Log.setLogFile filepath s).2.world.canOpen = s.world.canOpen := by
  unfold Log.setLogFile
  split_ifs <;> rfl

theorem setLogFile_openFiles (filepath : String) (s : State) :
    (Log.setLogFile filepath s).2.world.openFiles
      = s.world.openFiles ++ (if s.world.canOpen filepath then [filepath] else []) := by
  unfold Log.setLogFile
  cases h : s.world.canOpen filepath <;> simp

theorem runSinkChanges_openFiles (ops : List SinkChange) (s : State) :
    (runSinkChanges ops s).world.openFiles
      = s.world.openFiles ++ openedBy s.world.canOpen ops := by
  induction ops generalizing s with
  | nil => simp [runSinkChanges, openedBy]
  | cons op ops ih =>
    have step : runSinkChanges (op :: ops) s = runSinkChanges ops (op.apply s) := rfl
    rw [step, ih]
    cases op with
    | setLogFile filepath =>
      simp only [SinkChange.apply, setLogFile_canOpen, setLogFile_openFiles, openedBy]
      cases h : s.world.canOpen filepath <;> simp
    | setLogStream stream =>
      simp only [SinkChange.apply, Log.setLogStream, openedBy]

/-- C12, the claim as stated fails: after two successful `setLogFile` calls
two files opened by the logger are open, not at most one; and after a
successful `setLogFile` followed by `setLogStream` the file is still open
although the sink is now the caller's stream. -/
theorem C12_previous_file_not_closed :
    ¬ ((runSinkChanges [.setLogFile "ok.log", .setLogFile "ok.log"]
          (sampleState .WARNING_LVL)).world.openFiles.length ≤ 1)
      ∧ (runSinkChanges [.setLogFile "ok.log", .setLogStream .cerr]
          (sampleState .WARNING_LVL)).world.openFiles = ["ok.log"]
      ∧ (runSinkChanges [.setLogFile "ok.log", .setLogStream .cerr]
          (sampleState .WARNING_LVL)).log._logStream = OStream.cerr := by
  decide

/-- C12, amended: on success `setLogFile path` returns `true` and the sink
becomes the newly opened file; replacing the sink never closes a file the
logger opened: `setLogStream` leaves the open files as they are, and over
every sequence of sink changes the open files are those open before
followed by one for each `setLogFile` call that succeeded. -/
theorem C12_sink_replaced_files_stay_open (ops : List SinkChange) (filepath : String)
    (stream : OStream) (s : State) :
    (s.world.canOpen filepath = true →
        (Log.setLogFile filepath s).1 = true
        ∧ (Log.setLogFile filepath s).2.log._logStream = .file s.world.openFiles.length
        ∧ (Log.setLogFile filepath s).2.world.openFiles = s.world.openFiles ++ [filepath]
        ∧ (Log.setLogFile filepath s).2.world.written (.file s.world.openFiles.length) = "")
      ∧ (Log.setLogStream stream s).log._logStream = stream
      ∧ (Log.setLogStream stream s).world.openFiles = s.world.openFiles
      ∧ (runSinkChanges ops s).world.openFiles
          = s.world.openFiles ++ openedBy s.world.canOpen ops
      ∧ s.world.openFiles.length ≤ (runSinkChanges ops s).world.openFiles.length := by
  refine ⟨?_, rfl, rfl, runSinkChanges_openFiles ops s, ?_⟩
  · intro h
    simp [Log.setLogFile, h]
  · rw [runSinkChanges_openFiles]
    simp

/-- C12, instance: opening `ok.log` in the sample world, and opening it a
second time. -/
theorem C12_sink_replaced_files_stay_open_witness :
    sampleWorld.canOpen "ok.log" = true
      ∧ (Log.setLogFile "ok.log" (sampleState .WARNING_LVL)).1 = true
      ∧ (Log.setLogFile "ok.log" (sampleState .WARNING_LVL)).2.log._logStream
          = OStream.file 0
      ∧ (runSinkChanges [.setLogFile "ok.log", .setLogFile "missing/dir.log",
            .setLogStream .cerr, .setLogFile "ok.log"]
          (sampleState .WARNING_LVL)).world.openFiles = ["ok.log", "ok.log"] :=
  have h := C12_sink_replaced_files_stay_open
    [.setLogFile "ok.log", .setLogFile "missing/dir.log", .setLogStream .cerr,
      .setLogFile "ok.log"] "ok.log" .cerr (sampleState .WARNING_LVL)
  ⟨by decide, (h.1 (by decide)).1, (h.1 (by decide)).2.1, h.2.2.2.1.trans (by decide)⟩

/-- C14: at noon `convertTimeToString` labels the time `AM` in both AM/PM
formats, because the test is `hours < 13`; the hours 0 to 11 are labelled
`AM` and 13 to 23 `PM` with the hour reduced by 12, as the claim says. -/
theorem C14_noon_labelled_AM :
    Log.convertTimeToString (sampleClockState .TIME_WITH_AM_PM_TIMESTAMP 12) = "12:05:07 AM:"
      ∧ Log.convertTimeToString (sampleClockState .DATE_TIME_WITH_AM_PM_TIMESTAMP 12)
          = "2012-12-03 12:05:07 AM:"
      ∧ Log.convertTimeToString (sampleClockState .TIME_WITH_AM_PM_TIMESTAMP 12)
          ≠ "12:05:07 PM:"
      ∧ Log.convertTimeToString (sampleClockState .TIME_WITH_AM_PM_TIMESTAMP 0) = "00:05:07 AM:"
      ∧ Log.convertTimeToString (sampleClockState .TIME_WITH_AM_PM_TIMESTAMP 11) = "11:05:07 AM:"
      ∧ Log.convertTimeToString (sampleClockState .TIME_WITH_AM_PM_TIMESTAMP 13) = "01:05:07 PM:"
      ∧ Log.convertTimeToString (sampleClockState .TIME_WITH_AM_PM_TIMESTAMP 23)
          = "11:05:07 PM:" := by
  decide

end bump
